import Mathlib

/-!
# MCP stdio protocol engine — verification against the source

Shallow embedding of the two MCP stdio servers of this repository
(`itick-mcp-server` and `hk-gov-mcp-server`).  Both servers duplicate the
same engine: a newline frame reader over `stdin`, a JSON-RPC dispatch
switch (`initialize`, `tools/list`, `tools/call`, default), and a tool
dispatcher that converts every handler failure into a tool-level
`isError` result.

Modelling conventions:
* JavaScript values are `Option Json`, with `none` standing for
  `undefined`; JSON `null` is `Json.null`.
* `JSON.parse` is embedded as an executable recursive-descent parser
  (`jsonParse`).  JSON numbers are modelled as integers: every frame of
  this wire protocol carries integer ids, and no behaviour that the
  development states depends on fractional values.
* The external collaborator of a tool handler (the HTTPS fetch together
  with the out-of-scope text formatting applied to its payload) is a
  parameter `oracle : String → String → Except String String`, mapping
  hostname and request path to the formatted text or a raised message.
  The request paths themselves are built exactly as in the source.
* Exact texts of engine-raised `TypeError`s and of `JSON.parse` syntax
  errors come from the JavaScript runtime; the embedding fixes one
  representative message for each, and no statement depends on their
  wording.
-/

set_option maxRecDepth 16384

/-- A parsed JSON value.  Numbers are restricted to integers (see the
module comment). -/
inductive Json where
  | null : Json
  | bool : Bool → Json
  | num : Int → Json
  | str : String → Json
  | arr : List Json → Json
  | obj : List (String × Json) → Json
deriving Repr

/-- A JavaScript value: `none` is `undefined`, `some Json.null` is `null`. -/
abbrev JsVal := Option Json

/-- First binding of a key in an object literal. -/
def lookupField : List (String × Json) → String → Option Json
  | [], _ => none
  | (k, v) :: rest, key => if k = key then some v else lookupField rest key

/-- Property access `v.key`: raises a `TypeError` on a `null` or
`undefined` base, yields `undefined` for a missing key or a non-object
base, as in JavaScript. -/
def jsGet (v : JsVal) (key : String) : Except String JsVal :=
  match v with
  | none => Except.error ("Cannot read properties of undefined (reading '" ++ key ++ "')")
  | some Json.null => Except.error ("Cannot read properties of null (reading '" ++ key ++ "')")
  | some (Json.obj fields) => Except.ok (lookupField fields key)
  | some _ => Except.ok none

/-- Optional chaining `v?.key`: `undefined` instead of a `TypeError`. -/
def jsOptGet (v : JsVal) (key : String) : JsVal :=
  match v with
  | none => none
  | some Json.null => none
  | some (Json.obj fields) => lookupField fields key
  | some _ => none

/-- JavaScript truthiness of a value. -/
def jsTruthy : JsVal → Bool
  | none => false
  | some Json.null => false
  | some (Json.bool b) => b
  | some (Json.num n) => n != 0
  | some (Json.str s) => s != ""
  | some (Json.arr _) => true
  | some (Json.obj _) => true

/-- Short-circuit `a || b` with a plain fallback value, as used for the
argument defaults (`args?.region || 'hk'`). -/
def jsOrElse (a : JsVal) (b : Json) : Json :=
  if jsTruthy a then a.getD b else b

mutual

/-- String coercion of a value inside a template literal (`${v}`). -/
def jsDisplay : Json → String
  | Json.null => "null"
  | Json.bool true => "true"
  | Json.bool false => "false"
  | Json.num n => toString n
  | Json.str s => s
  | Json.arr xs => jsDisplayArr xs
  | Json.obj _ => "[object Object]"

/-- Array coercion joins elements with commas; `null` elements print as
the empty string. -/
def jsDisplayArr : List Json → String
  | [] => ""
  | [Json.null] => ""
  | [x] => jsDisplay x
  | Json.null :: xs => "," ++ jsDisplayArr xs
  | x :: xs => jsDisplay x ++ "," ++ jsDisplayArr xs
end

/-- Template-literal coercion of a JavaScript value. -/
def jsToString : JsVal → String
  | none => "undefined"
  | some j => jsDisplay j

/-- Hexadecimal digit for `\uXXXX` escapes in `JSON.stringify`. -/
def hexDigit (n : Nat) : Char :=
  if n < 10 then Char.ofNat (48 + n) else Char.ofNat (87 + n)

/-- Four-digit lowercase hex, as produced by `JSON.stringify` for
control characters. -/
def hex4 (n : Nat) : String :=
  String.mk [hexDigit (n / 4096 % 16), hexDigit (n / 256 % 16),
             hexDigit (n / 16 % 16), hexDigit (n % 16)]

/-- Escaping of one character inside a `JSON.stringify`d string. -/
def escCharJson (c : Char) : String :=
  if c = '"' then "\\\""
  else if c = '\\' then "\\\\"
  else if c = '\n' then "\\n"
  else if c = '\r' then "\\r"
  else if c = '\t' then "\\t"
  else if c = '\x08' then "\\b"
  else if c = '\x0c' then "\\f"
  else if c.toNat < 32 then "\\u" ++ hex4 c.toNat
  else String.singleton c

/-- Quoted string literal, as `JSON.stringify` emits it. -/
def quoteStr (s : String) : String :=
  "\"" ++ String.join (s.data.map escCharJson) ++ "\""

mutual

/-- Serialization of a JSON value, matching `JSON.stringify` with no
indentation. -/
def stringifyJson : Json → String
  | Json.null => "null"
  | Json.bool true => "true"
  | Json.bool false => "false"
  | Json.num n => toString n
  | Json.str s => quoteStr s
  | Json.arr xs => "[" ++ stringifyArr xs ++ "]"
  | Json.obj fs => "\x7b" ++ stringifyFields fs ++ "\x7d"

/-- Comma-separated array elements. -/
def stringifyArr : List Json → String
  | [] => ""
  | [x] => stringifyJson x
  | x :: xs => stringifyJson x ++ "," ++ stringifyArr xs

/-- Comma-separated `"key":value` members. -/
def stringifyFields : List (String × Json) → String
  | [] => ""
  | [(k, v)] => quoteStr k ++ ":" ++ stringifyJson v
  | (k, v) :: fs => quoteStr k ++ ":" ++ stringifyJson v ++ "," ++ stringifyFields fs
end

/-!
## JSON.parse

An executable recursive-descent parser over the character list of the
frame, with a fuel argument bounding recursion depth.  `jsonParse`
supplies fuel larger than the input, which no JSON value of that length
can exhaust.
-/

/-- JSON whitespace (space, tab, line feed, carriage return). -/
def isJsonWs (c : Char) : Bool :=
  c = ' ' || c = '\t' || c = '\n' || c = '\r'

/-- Leading JSON whitespace removed. -/
def skipWs : List Char → List Char
  | [] => []
  | c :: cs => if isJsonWs c then skipWs cs else c :: cs

/-- Value of one hexadecimal digit. -/
def hexVal (c : Char) : Option Nat :=
  if '0' ≤ c ∧ c ≤ '9' then some (c.toNat - 48)
  else if 'a' ≤ c ∧ c ≤ 'f' then some (c.toNat - 87)
  else if 'A' ≤ c ∧ c ≤ 'F' then some (c.toNat - 55)
  else none

/-- Body of a string literal after the opening quote; returns the
decoded characters and the input after the closing quote. -/
def parseStrBody : Nat → List Char → Option (List Char × List Char)
  | 0, _ => none
  | _ + 1, [] => none
  | fuel + 1, c :: cs =>
    if c = '"' then some ([], cs)
    else if c = '\\' then
      match cs with
      | '"' :: rest => (parseStrBody fuel rest).map (fun r => ('"' :: r.1, r.2))
      | '\\' :: rest => (parseStrBody fuel rest).map (fun r => ('\\' :: r.1, r.2))
      | '/' :: rest => (parseStrBody fuel rest).map (fun r => ('/' :: r.1, r.2))
      | 'b' :: rest => (parseStrBody fuel rest).map (fun r => ('\x08' :: r.1, r.2))
      | 'f' :: rest => (parseStrBody fuel rest).map (fun r => ('\x0c' :: r.1, r.2))
      | 'n' :: rest => (parseStrBody fuel rest).map (fun r => ('\n' :: r.1, r.2))
      | 'r' :: rest => (parseStrBody fuel rest).map (fun r => ('\r' :: r.1, r.2))
      | 't' :: rest => (parseStrBody fuel rest).map (fun r => ('\t' :: r.1, r.2))
      | 'u' :: h1 :: h2 :: h3 :: h4 :: rest =>
        match hexVal h1, hexVal h2, hexVal h3, hexVal h4 with
        | some a, some b, some c3, some d =>
          (parseStrBody fuel rest).map
            (fun r => (Char.ofNat (a * 4096 + b * 256 + c3 * 16 + d) :: r.1, r.2))
        | _, _, _, _ => none
      | _ => none
    else if c.toNat < 32 then none
    else (parseStrBody fuel cs).map (fun r => (c :: r.1, r.2))

/-- Longest digit run at the front of the input. -/
def takeDigits : List Char → List Char × List Char
  | [] => ([], [])
  | c :: cs =>
    if c.isDigit then
      let r := takeDigits cs
      (c :: r.1, r.2)
    else ([], c :: cs)

/-- Numeric value of a digit run. -/
def digitsToNat : List Char → Nat
  | [] => 0
  | c :: cs => digitsToNat cs + (c.toNat - 48) * 10 ^ cs.length

/-- Unsigned JSON integer: a single `0`, or a nonzero digit followed by
digits (JSON rejects leading zeros). -/
def parseNatNum : List Char → Option (Nat × List Char)
  | [] => none
  | c :: cs =>
    if c = '0' then some (0, cs)
    else if c.isDigit then
      let r := takeDigits cs
      some (digitsToNat (c :: r.1), r.2)
    else none

/-- Signed JSON integer. -/
def parseIntNum : List Char → Option (Int × List Char)
  | '-' :: rest => (parseNatNum rest).map (fun r => (-(r.1 : Int), r.2))
  | input => (parseNatNum input).map (fun r => ((r.1 : Int), r.2))

mutual

/-- One JSON value, after leading whitespace. -/
def parseVal : Nat → List Char → Option (Json × List Char)
  | 0, _ => none
  | fuel + 1, input =>
    match skipWs input with
    | 'n' :: 'u' :: 'l' :: 'l' :: rest => some (Json.null, rest)
    | 't' :: 'r' :: 'u' :: 'e' :: rest => some (Json.bool true, rest)
    | 'f' :: 'a' :: 'l' :: 's' :: 'e' :: rest => some (Json.bool false, rest)
    | '"' :: rest =>
      (parseStrBody (rest.length + 1) rest).map (fun r => (Json.str (String.mk r.1), r.2))
    | '[' :: rest =>
      (match skipWs rest with
       | ']' :: r2 => some (Json.arr [], r2)
       | r2 => (parseItems fuel r2).map (fun r => (Json.arr r.1, r.2)))
    | '{' :: rest =>
      (match skipWs rest with
       | '}' :: r2 => some (Json.obj [], r2)
       | r2 => (parseMembers fuel r2).map (fun r => (Json.obj r.1, r.2)))
    | other => (parseIntNum other).map (fun r => (Json.num r.1, r.2))

/-- Array elements from the first element on, consuming the closing
bracket. -/
def parseItems : Nat → List Char → Option (List Json × List Char)
  | 0, _ => none
  | fuel + 1, input => do
    let (v, rest) ← parseVal fuel input
    match skipWs rest with
    | ',' :: r2 =>
      let r ← parseItems fuel r2
      some (v :: r.1, r.2)
    | ']' :: r2 => some ([v], r2)
    | _ => none

/-- Object members from the first member on, consuming the closing
brace. -/
def parseMembers : Nat → List Char → Option (List (String × Json) × List Char)
  | 0, _ => none
  | fuel + 1, input =>
    match skipWs input with
    | '"' :: rest => do
      let (key, r1) ← parseStrBody (rest.length + 1) rest
      match skipWs r1 with
      | ':' :: r2 => do
        let (v, r3) ← parseVal fuel r2
        match skipWs r3 with
        | ',' :: r4 =>
          let r ← parseMembers fuel r4
          some ((String.mk key, v) :: r.1, r.2)
        | '}' :: r4 => some ([(String.mk key, v)], r4)
        | _ => none
      | _ => none
    | _ => none
end

/-- Embedding of `JSON.parse`: one JSON value, with only whitespace
around it. -/
def jsonParse (s : String) : Option Json :=
  match parseVal (s.length + 1) s.data with
  | some (v, rest) => if skipWs rest = [] then some v else none
  | none => none

/-!
## Tool Dispatcher

`handleToolCall` of each server runs synchronously up to its external
fetch: it reads and defaults the arguments, checks requirements, and
switches on the tool name.  `CallPre` records where that synchronous
prefix ends: a raised message, or suspension on the request the source
builds.
-/

/-- Outcome of the synchronous prefix of a tool dispatch. -/
inductive CallPre where
  | fail (msg : String)
  | fetch (host : String) (path : String)
deriving Repr

/-- Strict equality (`===`) of a JavaScript value with a string literal,
as used by a `switch` case. -/
def isStrVal (v : JsVal) (s : String) : Bool :=
  match v with
  | some (Json.str t) => t == s
  | _ => false

/-- Hostname of the iTick API (`ITICK_BASE_URL` in the source). -/
def ITICK_BASE_URL : String := "api.itick.org"

/-- Embedding of `iTickMCPServer.handleToolCall` up to the external
fetch of each branch: the `region`/`type`/`period`/`limit` defaulting,
the `code` requirement checked before the switch, the tool-name switch,
and the request path each API method builds (`fetchITick` always
targets `ITICK_BASE_URL`). -/
def iTickHandleToolCall (name args : JsVal) : CallPre :=
  let region := jsToString (some (jsOrElse (jsOptGet args "region") (Json.str "hk")))
  let code := jsOptGet args "code"
  if !jsTruthy code then CallPre.fail "Stock code is required"
  else
    let codeS := jsToString code
    if isStrVal name "itick_search_symbol" then
      let ty := jsToString (some (jsOrElse (jsOptGet args "type") (Json.str "stock")))
      CallPre.fetch ITICK_BASE_URL
        ("/symbol/list?type=" ++ ty ++ "&region=" ++ region ++ "&code=" ++ codeS)
    else if isStrVal name "itick_get_price" then
      CallPre.fetch ITICK_BASE_URL ("/quote?region=" ++ region ++ "&code=" ++ codeS)
    else if isStrVal name "itick_get_kline" then
      let period := jsToString (some (jsOrElse (jsOptGet args "period") (Json.str "1d")))
      let lim := jsToString (some (jsOrElse (jsOptGet args "limit") (Json.num 30)))
      CallPre.fetch ITICK_BASE_URL
        ("/kline?region=" ++ region ++ "&code=" ++ codeS ++ "&period=" ++ period ++ "&limit=" ++ lim)
    else if isStrVal name "itick_get_quote" then
      CallPre.fetch ITICK_BASE_URL ("/quote?region=" ++ region ++ "&code=" ++ codeS)
    else if isStrVal name "itick_get_depth" then
      CallPre.fetch ITICK_BASE_URL ("/depth?region=" ++ region ++ "&code=" ++ codeS)
    else if isStrVal name "itick_get_trades" then
      CallPre.fetch ITICK_BASE_URL ("/trades?region=" ++ region ++ "&code=" ++ codeS)
    else CallPre.fail ("Unknown tool: " ++ jsToString name)

/-- Embedding of `HKGovMCPServer.handleToolCall` up to the external
request of each branch (hostnames and paths from `HK_APIS`; the
`ha_ae_waiting_time` branch uses plain HTTP in the source, a distinction
the collaborator oracle does not need).  The `kmb_get_eta` branch reads
`args.stop_id`, `args.route` and `args.direction` without optional
chaining, so absent arguments raise a `TypeError` here. -/
def hkgovHandleToolCall (name args : JsVal) : CallPre :=
  let lang := jsToString (some (jsOrElse (jsOptGet args "language") (Json.str "tc")))
  if isStrVal name "hko_local_forecast" then
    CallPre.fetch "data.weather.gov.hk" ("/weatherAPI/opendata/weather.php?dataType=flw&lang=" ++ lang)
  else if isStrVal name "hko_9day_forecast" then
    CallPre.fetch "data.weather.gov.hk" ("/weatherAPI/opendata/weather.php?dataType=fnd&lang=" ++ lang)
  else if isStrVal name "hko_current_weather" then
    CallPre.fetch "data.weather.gov.hk" ("/weatherAPI/opendata/weather.php?dataType=rhrread&lang=" ++ lang)
  else if isStrVal name "hko_weather_warnings" then
    CallPre.fetch "data.weather.gov.hk" ("/weatherAPI/opendata/weather.php?dataType=warnsum&lang=" ++ lang)
  else if isStrVal name "hko_special_tips" then
    CallPre.fetch "data.weather.gov.hk" ("/weatherAPI/opendata/weather.php?dataType=swt&lang=" ++ lang)
  else if isStrVal name "hko_earthquake_info" then
    CallPre.fetch "data.weather.gov.hk" ("/weatherAPI/opendata/earthquake.php?dataType=eqinfo&lang=" ++ lang)
  else if isStrVal name "td_traffic_speed" then
    CallPre.fetch "api.data.gov.hk" "/v1/transport/traffic-speed-map"
  else if isStrVal name "ha_ae_waiting_time" then
    CallPre.fetch "www.ha.org.hk" "/opendata/aed/aedwtdata-en.json"
  else if isStrVal name "kmb_get_routes" then
    CallPre.fetch "data.etabus.gov.hk" "/v1/transport/kmb/route/"
  else if isStrVal name "kmb_get_stops" then
    CallPre.fetch "data.etabus.gov.hk" "/v1/transport/kmb/stop/"
  else if isStrVal name "kmb_get_eta" then
    match jsGet args "stop_id" with
    | Except.error e => CallPre.fail e
    | Except.ok sid =>
      match jsGet args "route" with
      | Except.error e => CallPre.fail e
      | Except.ok route =>
        match jsGet args "direction" with
        | Except.error e => CallPre.fail e
        | Except.ok dir =>
          CallPre.fetch "data.etabus.gov.hk"
            ("/v1/transport/kmb/eta/" ++ jsToString sid ++ "/" ++ jsToString route ++ "/" ++ jsToString dir ++ "/")
  else CallPre.fail ("Unknown tool: " ++ jsToString name)

/-!
## Server configuration

Each server owns a name, a version, the frozen tool table built by
`defineTools` in its constructor, and its `handleToolCall`.
-/

/-- One MCP server instance: the constants at the top of each source
file, the tool registry built once in the constructor, and the tool
dispatcher. -/
structure MCPServer where
  serverName : String
  serverVersion : String
  toolsJson : Json
  callPre : JsVal → JsVal → CallPre

/-- MCP protocol version announced by both servers. -/
def MCP_PROTOCOL_VERSION : String := "2024-11-05"

/-- External collaborator of a tool handler: hostname and request path
to formatted text, or a raised message (timeout, network error, a
formatter fault on an unexpected payload). -/
abbrev ToolOracle := String → String → Except String String

/-!
## Protocol Handler

Responses are JavaScript objects whose values may be `undefined`
(`JSON.stringify` omits such members).  The three method handlers and
the two error envelopes below build them exactly as the source does.
-/

/-- A response object under construction: field order as written in the
source, `none` values standing for `undefined`. -/
abbrev JSObj := List (String × JsVal)

/-- Field of a response object (`undefined` when absent). -/
def jsObjField (o : JSObj) (key : String) : JsVal :=
  match o with
  | [] => none
  | (k, v) :: rest => if k = key then v else jsObjField rest key

/-- Serialization view of a response object: `undefined` members are
omitted, as `JSON.stringify` does. -/
def jsObjToJson (o : JSObj) : Json :=
  Json.obj (o.filterMap (fun kv => kv.2.map (fun v => (kv.1, v))))

/-- Embedding of `handleInitialize`: the fixed capability announcement
under the request's id. -/
def handleInitialize (srv : MCPServer) (id : JsVal) : JSObj :=
  [("jsonrpc", some (Json.str "2.0")),
   ("id", id),
   ("result", some (Json.obj [
      ("protocolVersion", Json.str MCP_PROTOCOL_VERSION),
      ("capabilities", Json.obj [("tools", Json.obj [])]),
      ("serverInfo", Json.obj [
         ("name", Json.str srv.serverName),
         ("version", Json.str srv.serverVersion)])]))]

/-- Embedding of `handleToolsList`: the frozen registry under the
request's id. -/
def handleToolsList (srv : MCPServer) (id : JsVal) : JSObj :=
  [("jsonrpc", some (Json.str "2.0")),
   ("id", id),
   ("result", some (Json.obj [("tools", srv.toolsJson)]))]

/-- Envelopes of `handleToolsCall`: the `try` branch wraps a produced
text as a non-error content list, the `catch` branch wraps a raised
message as `isError: true` with text `Error: <message>`. -/
def toolsCallWrap (id : JsVal) (outcome : Except String String) : JSObj :=
  match outcome with
  | Except.ok txt =>
    [("jsonrpc", some (Json.str "2.0")),
     ("id", id),
     ("result", some (Json.obj [
        ("content", Json.arr [Json.obj [("type", Json.str "text"), ("text", Json.str txt)]]),
        ("isError", Json.bool false)]))]
  | Except.error e =>
    [("jsonrpc", some (Json.str "2.0")),
     ("id", id),
     ("result", some (Json.obj [
        ("content", Json.arr [Json.obj [("type", Json.str "text"), ("text", Json.str ("Error: " ++ e))]]),
        ("isError", Json.bool true)]))]

/-- Body of `handleToolsCall`'s `try`: read `params.name` and
`params.arguments` (a `TypeError` on a missing `params` lands in the
`catch`), run the dispatch prefix, then the external call. -/
def toolCallOutcome (srv : MCPServer) (oracle : ToolOracle) (params : JsVal) :
    Except String String := do
  let name ← jsGet params "name"
  let args ← jsGet params "arguments"
  match srv.callPre name args with
  | CallPre.fail e => Except.error e
  | CallPre.fetch host path => oracle host path

/-- Embedding of `handleToolsCall`: every failure of the dispatch is
caught and wrapped; the function always yields a response object. -/
def handleToolsCall (srv : MCPServer) (oracle : ToolOracle) (id params : JsVal) : JSObj :=
  toolsCallWrap id (toolCallOutcome srv oracle params)

/-- Top-level `method not found` envelope of the dispatch switch's
default branch. -/
def methodNotFound (id m : JsVal) : JSObj :=
  [("jsonrpc", some (Json.str "2.0")),
   ("id", id),
   ("error", some (Json.obj [
      ("code", Json.num (-32601)),
      ("message", Json.str ("Method not found: " ++ jsToString m))]))]

/-- Top-level parse-error envelope of the session loop's `catch`: code
`-32700`, no `id` member at all. -/
def parseErrorResponse (emsg : String) : JSObj :=
  [("jsonrpc", some (Json.str "2.0")),
   ("error", some (Json.obj [
      ("code", Json.num (-32700)),
      ("message", Json.str ("Parse error: " ++ emsg))]))]

/-- Representative text of a `JSON.parse` syntax error (the runtime's
wording is engine-defined; nothing below depends on it). -/
def jsonSyntaxErrorMessage : String := "Unexpected token in JSON"

/-!
## Session loop, per frame

`run` parses each nonblank frame and switches on `message.method`
inside one `try` whose `catch` emits the parse-error envelope.  The
dispatch of a frame either has its response synchronously (all methods
but a `tools/call` that reaches its fetch) or suspends awaiting the
external collaborator; `LineAct` records which.
-/

/-- Result of dispatching one parsed frame: a response available at
once, or suspension on an external fetch for the given request id. -/
inductive LineAct where
  | writeNow (resp : JSObj)
  | awaitFetch (id : JsVal) (host : String) (path : String)

/-- Dispatch switch of `run` on a parsed message.  Reading `.method` or
`.id` of a `null` message raises, landing in the loop's `catch`.  A
`tools/call` whose dispatch prefix raises has its (caught, wrapped)
response at once; one that reaches the fetch suspends. -/
def lineDispatch (srv : MCPServer) (msg : Json) : Except String LineAct := do
  let m ← jsGet (some msg) "method"
  if isStrVal m "initialize" then do
    let i ← jsGet (some msg) "id"
    pure (LineAct.writeNow (handleInitialize srv i))
  else if isStrVal m "tools/list" then do
    let i ← jsGet (some msg) "id"
    pure (LineAct.writeNow (handleToolsList srv i))
  else if isStrVal m "tools/call" then do
    let i ← jsGet (some msg) "id"
    let p ← jsGet (some msg) "params"
    match (do
        let name ← jsGet p "name"
        let args ← jsGet p "arguments"
        Except.ok (srv.callPre name args) : Except String CallPre) with
    | Except.error e => pure (LineAct.writeNow (toolsCallWrap i (Except.error e)))
    | Except.ok (CallPre.fail e) => pure (LineAct.writeNow (toolsCallWrap i (Except.error e)))
    | Except.ok (CallPre.fetch host path) => pure (LineAct.awaitFetch i host path)
  else do
    let i ← jsGet (some msg) "id"
    pure (LineAct.writeNow (methodNotFound i m))

/-- One frame through `JSON.parse` and the dispatch switch; a raised
error is the `catch`'s parse-error envelope. -/
def lineAction (srv : MCPServer) (line : String) : LineAct :=
  match (match jsonParse line with
         | none => Except.error jsonSyntaxErrorMessage
         | some msg => lineDispatch srv msg) with
  | Except.ok act => act
  | Except.error e => LineAct.writeNow (parseErrorResponse e)

/-- JavaScript `!line.trim()`: the frame is empty or whitespace-only
(such frames are skipped with no response). -/
def jsBlankLine (s : String) : Bool :=
  s.data.all (fun c => c = ' ' || c = '\t' || c = '\n' || c = '\r' || c = '\x0b' || c = '\x0c')

/-- Responses written for one frame when each dispatch is awaited to
completion before the loop advances: none for a blank frame, otherwise
exactly one. -/
def runLine (srv : MCPServer) (oracle : ToolOracle) (line : String) : List JSObj :=
  if jsBlankLine line then []
  else
    match lineAction srv line with
    | LineAct.writeNow r => [r]
    | LineAct.awaitFetch i host path => [toolsCallWrap i (oracle host path)]

/-- Responses written for a list of frames, in frame order. -/
def runLines (srv : MCPServer) (oracle : ToolOracle) : List String → List JSObj
  | [] => []
  | l :: ls => runLine srv oracle l ++ runLines srv oracle ls

/-!
## Tool Registry

The frozen tables built by `defineTools` in each constructor,
transcribed member-for-member in source order.
-/

/-- Tool table of `iTickMCPServer.defineTools`. -/
def iTickToolsJson : Json := Json.arr [
  Json.obj [
    ("name", Json.str "itick_search_symbol"),
    ("description", Json.str "Search for stock symbol information (搜索股票代碼)"),
    ("inputSchema", Json.obj [
      ("type", Json.str "object"),
      ("properties", Json.obj [
        ("type", Json.obj [
          ("type", Json.str "string"),
          ("enum", Json.arr [Json.str "stock", Json.str "crypto", Json.str "forex", Json.str "index"]),
          ("description", Json.str "Asset type"),
          ("default", Json.str "stock")]),
        ("region", Json.obj [
          ("type", Json.str "string"),
          ("enum", Json.arr [Json.str "hk", Json.str "us", Json.str "cn", Json.str "sg", Json.str "jp"]),
          ("description", Json.str "Market region: hk (香港), us (美國), cn (中國), sg (新加坡), jp (日本)"),
          ("default", Json.str "hk")]),
        ("code", Json.obj [
          ("type", Json.str "string"),
          ("description", Json.str "Stock code or symbol (股票代碼)")])]),
      ("required", Json.arr [Json.str "code"])])],
  Json.obj [
    ("name", Json.str "itick_get_price"),
    ("description", Json.str "Get real-time stock price (獲取實時股票價格)"),
    ("inputSchema", Json.obj [
      ("type", Json.str "object"),
      ("properties", Json.obj [
        ("region", Json.obj [
          ("type", Json.str "string"),
          ("enum", Json.arr [Json.str "hk", Json.str "us", Json.str "cn", Json.str "sg", Json.str "jp"]),
          ("description", Json.str "Market region"),
          ("default", Json.str "hk")]),
        ("code", Json.obj [
          ("type", Json.str "string"),
          ("description", Json.str "Stock code (股票代碼)")])]),
      ("required", Json.arr [Json.str "code"])])],
  Json.obj [
    ("name", Json.str "itick_get_kline"),
    ("description", Json.str "Get stock K-line/historical data (獲取股票K線/歷史數據)"),
    ("inputSchema", Json.obj [
      ("type", Json.str "object"),
      ("properties", Json.obj [
        ("region", Json.obj [
          ("type", Json.str "string"),
          ("enum", Json.arr [Json.str "hk", Json.str "us", Json.str "cn", Json.str "sg", Json.str "jp"]),
          ("description", Json.str "Market region"),
          ("default", Json.str "hk")]),
        ("code", Json.obj [
          ("type", Json.str "string"),
          ("description", Json.str "Stock code (股票代碼)")]),
        ("period", Json.obj [
          ("type", Json.str "string"),
          ("enum", Json.arr [Json.str "1m", Json.str "5m", Json.str "15m", Json.str "30m",
                             Json.str "1h", Json.str "1d", Json.str "1w", Json.str "1M"]),
          ("description", Json.str "Time period: 1m, 5m, 15m, 30m, 1h, 1d, 1w, 1M"),
          ("default", Json.str "1d")]),
        ("limit", Json.obj [
          ("type", Json.str "number"),
          ("description", Json.str "Number of data points"),
          ("default", Json.num 30)])]),
      ("required", Json.arr [Json.str "code"])])],
  Json.obj [
    ("name", Json.str "itick_get_quote"),
    ("description", Json.str "Get detailed stock quote (獲取詳細股票報價)"),
    ("inputSchema", Json.obj [
      ("type", Json.str "object"),
      ("properties", Json.obj [
        ("region", Json.obj [
          ("type", Json.str "string"),
          ("enum", Json.arr [Json.str "hk", Json.str "us", Json.str "cn", Json.str "sg", Json.str "jp"]),
          ("description", Json.str "Market region"),
          ("default", Json.str "hk")]),
        ("code", Json.obj [
          ("type", Json.str "string"),
          ("description", Json.str "Stock code (股票代碼)")])]),
      ("required", Json.arr [Json.str "code"])])],
  Json.obj [
    ("name", Json.str "itick_get_depth"),
    ("description", Json.str "Get order book depth (獲取盤口深度)"),
    ("inputSchema", Json.obj [
      ("type", Json.str "object"),
      ("properties", Json.obj [
        ("region", Json.obj [
          ("type", Json.str "string"),
          ("enum", Json.arr [Json.str "hk", Json.str "us", Json.str "cn", Json.str "sg", Json.str "jp"]),
          ("description", Json.str "Market region"),
          ("default", Json.str "hk")]),
        ("code", Json.obj [
          ("type", Json.str "string"),
          ("description", Json.str "Stock code (股票代碼)")])]),
      ("required", Json.arr [Json.str "code"])])],
  Json.obj [
    ("name", Json.str "itick_get_trades"),
    ("description", Json.str "Get recent trades (獲取最近成交)"),
    ("inputSchema", Json.obj [
      ("type", Json.str "object"),
      ("properties", Json.obj [
        ("region", Json.obj [
          ("type", Json.str "string"),
          ("enum", Json.arr [Json.str "hk", Json.str "us", Json.str "cn", Json.str "sg", Json.str "jp"]),
          ("description", Json.str "Market region"),
          ("default", Json.str "hk")]),
        ("code", Json.obj [
          ("type", Json.str "string"),
          ("description", Json.str "Stock code (股票代碼)")])]),
      ("required", Json.arr [Json.str "code"])])]]

/-- Tool table of `HKGovMCPServer.defineTools`. -/
def hkgovToolsJson : Json := Json.arr [
  Json.obj [
    ("name", Json.str "hko_local_forecast"),
    ("description", Json.str "Get Hong Kong local weather forecast (香港本地天氣預報)"),
    ("inputSchema", Json.obj [
      ("type", Json.str "object"),
      ("properties", Json.obj [
        ("language", Json.obj [
          ("type", Json.str "string"),
          ("enum", Json.arr [Json.str "en", Json.str "tc", Json.str "sc"]),
          ("description", Json.str "Language: en (English), tc (繁體中文), sc (簡體中文)"),
          ("default", Json.str "tc")])])])],
  Json.obj [
    ("name", Json.str "hko_9day_forecast"),
    ("description", Json.str "Get Hong Kong 9-day weather forecast (香港9天天氣預報)"),
    ("inputSchema", Json.obj [
      ("type", Json.str "object"),
      ("properties", Json.obj [
        ("language", Json.obj [
          ("type", Json.str "string"),
          ("enum", Json.arr [Json.str "en", Json.str "tc", Json.str "sc"]),
          ("description", Json.str "Language: en (English), tc (繁體中文), sc (簡體中文)"),
          ("default", Json.str "tc")])])])],
  Json.obj [
    ("name", Json.str "hko_current_weather"),
    ("description", Json.str "Get current weather conditions in Hong Kong (香港實時天氣)"),
    ("inputSchema", Json.obj [
      ("type", Json.str "object"),
      ("properties", Json.obj [
        ("language", Json.obj [
          ("type", Json.str "string"),
          ("enum", Json.arr [Json.str "en", Json.str "tc", Json.str "sc"]),
          ("description", Json.str "Language: en (English), tc (繁體中文), sc (簡體中文)"),
          ("default", Json.str "tc")])])])],
  Json.obj [
    ("name", Json.str "hko_weather_warnings"),
    ("description", Json.str "Get weather warnings in Hong Kong (香港天氣警告)"),
    ("inputSchema", Json.obj [
      ("type", Json.str "object"),
      ("properties", Json.obj [
        ("language", Json.obj [
          ("type", Json.str "string"),
          ("enum", Json.arr [Json.str "en", Json.str "tc", Json.str "sc"]),
          ("description", Json.str "Language: en (English), tc (繁體中文), sc (簡體中文)"),
          ("default", Json.str "tc")])])])],
  Json.obj [
    ("name", Json.str "hko_special_tips"),
    ("description", Json.str "Get special weather tips for Hong Kong (香港特別天氣提示)"),
    ("inputSchema", Json.obj [
      ("type", Json.str "object"),
      ("properties", Json.obj [
        ("language", Json.obj [
          ("type", Json.str "string"),
          ("enum", Json.arr [Json.str "en", Json.str "tc", Json.str "sc"]),
          ("description", Json.str "Language: en (English), tc (繁體中文), sc (簡體中文)"),
          ("default", Json.str "tc")])])])],
  Json.obj [
    ("name", Json.str "hko_earthquake_info"),
    ("description", Json.str "Get earthquake information (地震資訊)"),
    ("inputSchema", Json.obj [
      ("type", Json.str "object"),
      ("properties", Json.obj [
        ("language", Json.obj [
          ("type", Json.str "string"),
          ("enum", Json.arr [Json.str "en", Json.str "tc", Json.str "sc"]),
          ("description", Json.str "Language: en (English), tc (繁體中文), sc (簡體中文)"),
          ("default", Json.str "tc")])])])],
  Json.obj [
    ("name", Json.str "td_traffic_speed"),
    ("description", Json.str "Get Hong Kong traffic speed map data (香港交通速度圖)"),
    ("inputSchema", Json.obj [
      ("type", Json.str "object"),
      ("properties", Json.obj [])])],
  Json.obj [
    ("name", Json.str "ha_ae_waiting_time"),
    ("description", Json.str "Get A&E waiting time for Hong Kong hospitals (公立醫院急症室輪候時間)"),
    ("inputSchema", Json.obj [
      ("type", Json.str "object"),
      ("properties", Json.obj [])])],
  Json.obj [
    ("name", Json.str "kmb_get_routes"),
    ("description", Json.str "Get all KMB bus routes (九巴路線列表)"),
    ("inputSchema", Json.obj [
      ("type", Json.str "object"),
      ("properties", Json.obj [])])],
  Json.obj [
    ("name", Json.str "kmb_get_stops"),
    ("description", Json.str "Get all KMB bus stops (九巴巴士站列表)"),
    ("inputSchema", Json.obj [
      ("type", Json.str "object"),
      ("properties", Json.obj [])])],
  Json.obj [
    ("name", Json.str "kmb_get_eta"),
    ("description", Json.str "Get KMB bus ETA for a specific stop and route (查詢九巴到站時間)"),
    ("inputSchema", Json.obj [
      ("type", Json.str "object"),
      ("properties", Json.obj [
        ("stop_id", Json.obj [
          ("type", Json.str "string"),
          ("description", Json.str "Stop ID (巴士站編號)")]),
        ("route", Json.obj [
          ("type", Json.str "string"),
          ("description", Json.str "Route number (路線號碼)")]),
        ("direction", Json.obj [
          ("type", Json.str "string"),
          ("enum", Json.arr [Json.str "inbound", Json.str "outbound"]),
          ("description", Json.str "Direction: inbound or outbound")])]),
      ("required", Json.arr [Json.str "stop_id", Json.str "route", Json.str "direction"])])]]

/-- The `itick-mcp-server` instance. -/
def itickServer : MCPServer :=
  { serverName := "itick-mcp-server"
    serverVersion := "1.0.0"
    toolsJson := iTickToolsJson
    callPre := iTickHandleToolCall }

/-- The `hk-gov-mcp-server` instance. -/
def hkgovServer : MCPServer :=
  { serverName := "hk-gov-mcp-server"
    serverVersion := "1.0.0"
    toolsJson := hkgovToolsJson
    callPre := hkgovHandleToolCall }

/-!
## Frame Reader

`run` accumulates chunks in `buffer`, splits on the newline character,
pops the last piece back into the buffer, and treats the rest as
complete frames.
-/

/-- Splitting on the newline character, as `buffer.split('\n')` does:
the result is always nonempty, and a trailing newline yields a final
empty piece. -/
def splitNL : List Char → List (List Char)
  | [] => [[]]
  | c :: cs =>
    if c = '\n' then [] :: splitNL cs
    else
      match splitNL cs with
      | [] => [[c]]
      | p :: ps => (c :: p) :: ps

/-- String-level `split('\n')`. -/
def jsSplit (s : String) : List String := (splitNL s.data).map String.mk

/-- One `data` event of the Frame Reader: append the chunk, split, keep
the last piece as the new buffer; the other pieces are complete
frames. -/
def feedChunk (buf chunk : String) : List String × String :=
  let lines := jsSplit (buf ++ chunk)
  (lines.dropLast, lines.getLastD "")

/-- The Frame Reader over a whole chunk sequence: all frames in
emission order, and the final buffer. -/
def feedAll (buf : String) : List String → List String × String
  | [] => ([], buf)
  | c :: cs =>
    let step := feedChunk buf c
    let rest := feedAll step.2 cs
    (step.1 ++ rest.1, rest.2)

/-- Joining of two newline splits: the head of the second split extends
the last piece of the first.  `splitNL` maps concatenation to
`mergeLast`, which is what makes chunk boundaries transparent. -/
def mergeLast : List (List Char) → List (List Char) → List (List Char)
  | [], v => v
  | [x], [] => [x]
  | [x], h :: t => (x ++ h) :: t
  | x :: xs, v => x :: mergeLast xs v

/-- Concatenation of all input chunks. -/
def concatChunks : List String → String
  | [] => ""
  | c :: cs => c ++ concatChunks cs

/-- Sequential session over one chunk, when each frame's dispatch is
awaited to completion before the next frame: the new buffer and the
responses in frame order. -/
def runChunk (srv : MCPServer) (oracle : ToolOracle) (buf chunk : String) :
    String × List JSObj :=
  let pieces := jsSplit (buf ++ chunk)
  (pieces.getLastD "", runLines srv oracle pieces.dropLast)

/-!
## The event loop, asynchronously

`run` installs the frame handler with `stdin.on('data', async (chunk) =>
...)`. The emitter does not await the returned promise: while an earlier
invocation is suspended on a `tools/call`'s fetch, a later `data` event
starts a new invocation at once. The machine below makes that explicit.
Each external event is either a chunk arriving or a pending fetch
settling; an invocation runs synchronously up to its next external
await (dispatches that raise without reaching a fetch settle in a
microtask, which never yields to another external event, so they are
folded into the invocation).
-/

/-- A `tools/call` suspended on its fetch: completion key, the request
id to respond under, and the later lines of the same invocation, which
resume only after this call settles. -/
structure PendTask where
  key : Nat
  callId : JsVal
  rest : List String

/-- One external event: a `data` chunk, or the fetch with the given key
settling with the collaborator's outcome. -/
inductive NodeEvent where
  | chunkArrive (s : String)
  | fetchDone (key : Nat) (outcome : Except String String)

/-- State of the asynchronous session: Frame Reader buffer, fresh-key
counter, suspended calls, frames read so far (arrival order), responses
written so far (write order). -/
structure LoopState where
  buffer : String
  nextKey : Nat
  tasks : List PendTask
  framesRead : List String
  output : List JSObj

/-- Lines of one invocation, run to the next external await: blank
frames are skipped, synchronous responses are written in order, and a
`tools/call` reaching its fetch parks the remaining lines behind a
fresh key. -/
def runInvocation (srv : MCPServer) (st : LoopState) : List String → LoopState
  | [] => st
  | l :: ls =>
    if jsBlankLine l then runInvocation srv st ls
    else
      match lineAction srv l with
      | LineAct.writeNow r => runInvocation srv { st with output := st.output ++ [r] } ls
      | LineAct.awaitFetch i _ _ =>
        { st with nextKey := st.nextKey + 1,
                  tasks := st.tasks ++ [⟨st.nextKey, i, ls⟩] }

/-- Transition on one external event.  A `data` event runs the Frame
Reader and starts an invocation over the new frames — even while
earlier calls are pending.  A fetch completion writes the wrapped
response and resumes that invocation's remaining lines. -/
def eventStep (srv : MCPServer) (st : LoopState) : NodeEvent → LoopState
  | NodeEvent.chunkArrive s =>
    let pieces := jsSplit (st.buffer ++ s)
    let frames := pieces.dropLast
    runInvocation srv
      { st with buffer := pieces.getLastD "",
                framesRead := st.framesRead ++ frames }
      frames
  | NodeEvent.fetchDone k outcome =>
    match st.tasks.find? (fun t => t.key == k) with
    | none => st
    | some t =>
      runInvocation srv
        { st with tasks := st.tasks.filter (fun t2 => t2.key != k),
                  output := st.output ++ [toolsCallWrap t.callId outcome] }
        t.rest

/-- The asynchronous session from the initial state. -/
def sessionRun (srv : MCPServer) (events : List NodeEvent) : LoopState :=
  events.foldl (eventStep srv) ⟨"", 0, [], [], []⟩

/-!
## Projections and a substring test, for stating the claims
-/

/-- Request id of a frame, as a JavaScript value. -/
def frameId (f : String) : JsVal := jsOptGet (jsonParse f) "id"

/-- The `result.isError` member of a response. -/
def respIsError (o : JSObj) : Option Json :=
  match jsObjField o "result" with
  | some (Json.obj fs) => lookupField fs "isError"
  | _ => none

/-- The `text` of the first `content` entry of a response's result. -/
def respText (o : JSObj) : Option Json :=
  match jsObjField o "result" with
  | some (Json.obj fs) =>
    match lookupField fs "content" with
    | some (Json.arr (Json.obj c0 :: _)) => lookupField c0 "text"
    | _ => none
  | _ => none

/-- The `error.code` member of a response. -/
def respErrCode (o : JSObj) : Option Int :=
  match jsObjField o "error" with
  | some (Json.obj fs) =>
    match lookupField fs "code" with
    | some (Json.num n) => some n
    | _ => none
  | _ => none

/-- The `error.message` member of a response. -/
def respErrMsg (o : JSObj) : Option Json :=
  match jsObjField o "error" with
  | some (Json.obj fs) => lookupField fs "message"
  | _ => none

/-- Whether `p` stands at the front of `l`. -/
def listStartsWith : List Char → List Char → Bool
  | [], _ => true
  | _ :: _, [] => false
  | p :: ps, c :: cs => p == c && listStartsWith ps cs

/-- Whether `p` occurs anywhere inside `l`. -/
def listOccursIn (p l : List Char) : Bool :=
  match l with
  | [] => listStartsWith p []
  | _ :: cs => listStartsWith p l || listOccursIn p cs

/-- Whether the string `pat` occurs inside `s`. -/
def strContains (s pat : String) : Bool := listOccursIn pat.data s.data

/-- Registered tool names of a registry, in table order. -/
def toolNamesOf (t : Json) : List String :=
  match t with
  | Json.arr ds => ds.filterMap (fun d =>
      match d with
      | Json.obj fs =>
        match lookupField fs "name" with
        | some (Json.str s) => some s
        | _ => none
      | _ => none)
  | _ => []

/-- Serialized bytes of the `result.tools` member of a response. -/
def respToolsBytes (o : JSObj) : Option String :=
  match jsObjField o "result" with
  | some (Json.obj fs) =>
    match lookupField fs "tools" with
    | some t => some (stringifyJson t)
    | none => none
  | _ => none

/-!
## Concrete frames and collaborator stubs used by the claim statements
-/

/-- Frame 1 of the failing trace: a well-formed `tools/call` of
`itick_get_price` whose fetch is still pending when frame 2 arrives. -/
def c1SlowFrame : String :=
  "\x7b\"jsonrpc\":\"2.0\",\"id\":1,\"method\":\"tools/call\",\"params\":\x7b\"name\":\"itick_get_price\",\"arguments\":\x7b\"code\":\"700\"\x7d\x7d\x7d"

/-- Frame 2 of the failing trace: an `initialize`, answered
synchronously. -/
def c1FastFrame : String :=
  "\x7b\"jsonrpc\":\"2.0\",\"id\":2,\"method\":\"initialize\",\"params\":\x7b\x7d\x7d"

/-- The failing trace: frame 1 arrives, frame 2 arrives in a second
chunk while frame 1's fetch is pending, and the fetch settles last. -/
def c1Trace : LoopState :=
  sessionRun itickServer
    [NodeEvent.chunkArrive (c1SlowFrame ++ "\n"),
     NodeEvent.chunkArrive (c1FastFrame ++ "\n"),
     NodeEvent.fetchDone 0 (Except.ok "formatted")]

/-- End-to-end `initialize` frame of the specification's scenario. -/
def c8InitFrame : String :=
  "\x7b\"jsonrpc\":\"2.0\",\"id\":1,\"method\":\"initialize\",\"params\":\x7b\x7d\x7d"

/-- First `tools/list` frame of a two-call session. -/
def c9Frame1 : String :=
  "\x7b\"jsonrpc\":\"2.0\",\"id\":5,\"method\":\"tools/list\",\"params\":\x7b\x7d\x7d"

/-- Second `tools/list` frame of the same session. -/
def c9Frame2 : String :=
  "\x7b\"jsonrpc\":\"2.0\",\"id\":9,\"method\":\"tools/list\",\"params\":\x7b\x7d\x7d"

/-- Collaborator stub for the concrete unknown-tool runs (never
reached: dispatch fails before any fetch). -/
def unknownToolOracle : ToolOracle := fun _ _ => Except.error "unreachable"

/-- Parameters naming the unregistered tool `nope` with empty
arguments. -/
def c3Params : JsVal :=
  some (Json.obj [("name", Json.str "nope"), ("arguments", Json.obj [])])

/-- Parameters of the specification's own scenario: the unregistered
tool `nonexistent_tool` with empty arguments. -/
def c4Params : JsVal :=
  some (Json.obj [("name", Json.str "nonexistent_tool"), ("arguments", Json.obj [])])

/-- A valid `tools/list` frame following the malformed one, for the C5
witness. -/
def c5NextFrame : String :=
  "\x7b\"jsonrpc\":\"2.0\",\"id\":3,\"method\":\"tools/list\",\"params\":\x7b\x7d\x7d"

/-- Raising collaborator for the C6 witness: every fetch times out. -/
def timeoutOracle : ToolOracle := fun _ _ => Except.error "Request timeout"

/-- A well-formed `tools/call` of the registered tool
`itick_get_price`, for the C6 witness. -/
def c6Frame : String :=
  "\x7b\"jsonrpc\":\"2.0\",\"id\":4,\"method\":\"tools/call\",\"params\":\x7b\"name\":\"itick_get_price\",\"arguments\":\x7b\"code\":\"700\"\x7d\x7d\x7d"

/-- Parameters of `c6Frame`. -/
def c6Params : JsVal :=
  some (Json.obj [("name", Json.str "itick_get_price"),
                  ("arguments", Json.obj [("code", Json.str "700")])])

/-- The unknown-method frame of the C7 witness. -/
def c7Frame : String := "\x7b\"jsonrpc\":\"2.0\",\"id\":7,\"method\":\"foo\"\x7d"

/-- A `do` step after a successful read continues with the value; the
equation is stated so `simp only` can rewrite past one bind. -/
theorem exceptBindOk {A B : Type} (g : A → Except String B) (x : A) :
    (Except.ok x >>= g : Except String B) = g x := rfl

/-- A `do` step after a raised message short-circuits with it. -/
theorem exceptBindErr {A B : Type} (g : A → Except String B) (m : String) :
    ((Except.error m : Except String A) >>= g) = Except.error m := rfl

/-!
## Claim C2 — chunking is transparent

`splitNL` turns concatenation into `mergeLast`, every piece of a split
is newline-free, and a newline-free string splits into itself; from
these, feeding the chunks one at a time equals splitting the
concatenated input once.
-/

/-- A newline split is never empty. -/
theorem splitNL_ne_nil (l : List Char) : splitNL l ≠ [] := by
  cases l with
  | nil => simp [splitNL]
  | cons c cs =>
    simp only [splitNL]
    split
    · simp
    · split <;> simp

/-- Unfolding of `splitNL` at a newline. -/
theorem splitNL_cons_nl (cs : List Char) : splitNL ('\n' :: cs) = [] :: splitNL cs := by
  simp [splitNL]

/-- Unfolding of `splitNL` at an ordinary character. -/
theorem splitNL_cons_other (c : Char) (cs : List Char) (hc : ¬ c = '\n') :
    splitNL (c :: cs) =
      match splitNL cs with
      | [] => [[c]]
      | p :: ps => (c :: p) :: ps := by
  simp [splitNL, hc]

/-- A newline-free string splits into itself alone. -/
theorem splitNL_of_no_nl : ∀ l : List Char, '\n' ∉ l → splitNL l = [l]
  | [], _ => rfl
  | c :: cs, h => by
    have hc : ¬ c = '\n' := fun e => h (e ▸ List.mem_cons_self c cs)
    have hcs := splitNL_of_no_nl cs (fun m => h (List.mem_cons_of_mem c m))
    rw [splitNL_cons_other c cs hc, hcs]

/-- Every piece of a newline split is newline-free. -/
theorem splitNL_no_nl : ∀ (l : List Char), ∀ p ∈ splitNL l, '\n' ∉ p := by
  intro l
  induction l with
  | nil =>
    intro p hp
    simp only [splitNL, List.mem_singleton] at hp
    subst hp
    simp
  | cons c cs ih =>
    intro p hp
    by_cases hc : c = '\n'
    · subst hc
      rw [splitNL_cons_nl, List.mem_cons] at hp
      rcases hp with h | h
      · subst h; simp
      · exact ih p h
    · rw [splitNL_cons_other c cs hc] at hp
      cases hcs : splitNL cs with
      | nil => exact absurd hcs (splitNL_ne_nil cs)
      | cons q qs =>
        rw [hcs] at hp
        simp only [List.mem_cons] at hp
        rcases hp with h | h
        · subst h
          intro hmem
          rcases List.mem_cons.mp hmem with h' | h'
          · exact hc h'.symm
          · exact ih q (by rw [hcs]; exact List.mem_cons_self q qs) h'
        · exact ih p (by rw [hcs]; exact List.mem_cons_of_mem q h)

/-- Unfolding of `mergeLast` under two leading pieces. -/
theorem mergeLast_cons_cons (x y : List Char) (ys v : List (List Char)) :
    mergeLast (x :: y :: ys) v = x :: mergeLast (y :: ys) v := by
  simp [mergeLast]

/-- Merging a nonempty first split is nonempty. -/
theorem mergeLast_ne_nil (T V : List (List Char)) (hT : T ≠ []) : mergeLast T V ≠ [] := by
  cases T with
  | nil => cases hT rfl
  | cons x xs =>
    cases xs with
    | nil => cases V <;> simp [mergeLast]
    | cons y ys => simp [mergeLast]

/-- The split of a concatenation merges the two splits. -/
theorem splitNL_append : ∀ a b : List Char,
    splitNL (a ++ b) = mergeLast (splitNL a) (splitNL b) := by
  intro a b
  induction a with
  | nil =>
    rw [List.nil_append]
    cases hb : splitNL b with
    | nil => exact absurd hb (splitNL_ne_nil b)
    | cons h t => simp [splitNL, mergeLast]
  | cons c cs ih =>
    by_cases hc : c = '\n'
    · subst hc
      rw [List.cons_append, splitNL_cons_nl, splitNL_cons_nl, ih]
      cases hcs : splitNL cs with
      | nil => exact absurd hcs (splitNL_ne_nil cs)
      | cons p ps => simp [mergeLast]
    · rw [List.cons_append, splitNL_cons_other c _ hc, splitNL_cons_other c cs hc, ih]
      cases hcs : splitNL cs with
      | nil => exact absurd hcs (splitNL_ne_nil cs)
      | cons p ps =>
        cases ps with
        | nil =>
          cases hb : splitNL b with
          | nil => exact absurd hb (splitNL_ne_nil b)
          | cons h t => simp [mergeLast]
        | cons q qs => simp [mergeLast]

/-- The default of `getLastD` is irrelevant on a nonempty list. -/
theorem getLastD_irrel {α : Type} (l : List α) (h : l ≠ []) (d1 d2 : α) :
    l.getLastD d1 = l.getLastD d2 := by
  rw [List.getLastD_eq_getLast?, List.getLastD_eq_getLast?]
  cases hl : l.getLast? with
  | none => exact absurd (List.getLast?_eq_none_iff.mp hl) h
  | some a => rfl

/-- The last element of a nonempty list is a member. -/
theorem getLastD_mem {α : Type} : ∀ (l : List α), l ≠ [] → ∀ d : α, l.getLastD d ∈ l
  | [x], _, d => by simp [List.getLastD_cons]
  | x :: y :: ys, _, d => by
    rw [List.getLastD_cons]
    exact List.mem_cons_of_mem x (getLastD_mem (y :: ys) (by simp) x)

/-- Taking the last piece commutes with wrapping pieces as strings. -/
theorem getLastD_map_mk (T : List (List Char)) (hT : T ≠ []) :
    (T.map String.mk).getLastD "" = String.mk (T.getLastD []) := by
  rw [List.getLastD_eq_getLast?, List.getLastD_eq_getLast?, List.getLast?_map]
  cases hl : T.getLast? with
  | none => exact absurd (List.getLast?_eq_none_iff.mp hl) hT
  | some a => rfl

/-- The last element of an append with a nonempty right part. -/
theorem getLastD_append_right {α : Type} (X U : List α) (hU : U ≠ []) (d : α) :
    (X ++ U).getLastD d = U.getLastD d := by
  rw [List.getLastD_eq_getLast?, List.getLastD_eq_getLast?,
      List.getLast?_append_of_ne_nil X hU]

/-- Merging touches only the last piece of the first split. -/
theorem mergeLast_eq_dropLast_append :
    ∀ (T V : List (List Char)), T ≠ [] →
      mergeLast T V = T.dropLast ++ mergeLast [T.getLastD []] V
  | [x], V, _ => by
    simp [List.getLastD_cons]
  | x :: y :: ys, V, _ => by
    have ih := mergeLast_eq_dropLast_append (y :: ys) V (by simp)
    rw [mergeLast_cons_cons, ih]
    have h3 : (x :: y :: ys).getLastD [] = (y :: ys).getLastD [] := by
      rw [List.getLastD_cons]
      exact getLastD_irrel (y :: ys) (by simp) x []
    rw [h3]
    rfl

/-- The Frame Reader over any chunk list, from any newline-free buffer,
emits exactly the non-final pieces of the split of buffer-plus-input
and retains the final piece. -/
theorem feedAll_split :
    ∀ (chunks : List String) (buf : String), '\n' ∉ buf.data →
    feedAll buf chunks =
      ((jsSplit (buf ++ concatChunks chunks)).dropLast,
       (jsSplit (buf ++ concatChunks chunks)).getLastD "") := by
  intro chunks
  induction chunks with
  | nil =>
    intro buf hb
    have h1 : (buf ++ concatChunks []).data = buf.data := by
      rw [String.data_append, show (concatChunks []).data = ([] : List Char) from rfl,
          List.append_nil]
    have h2 : jsSplit (buf ++ concatChunks []) = [buf] := by
      unfold jsSplit
      rw [h1, splitNL_of_no_nl buf.data hb]
      rfl
    simp only [feedAll, h2]
    rfl
  | cons c cs ih =>
    intro buf hb
    set T := splitNL (buf.data ++ c.data) with hTdef
    set L := T.getLastD [] with hLdef
    set V := splitNL (concatChunks cs).data with hVdef
    have hTne : T ≠ [] := splitNL_ne_nil _
    have hVne : V ≠ [] := splitNL_ne_nil _
    have hnl : '\n' ∉ L := splitNL_no_nl _ _ (getLastD_mem _ hTne [])
    have hTmk : jsSplit (buf ++ c) = T.map String.mk := by
      unfold jsSplit
      rw [String.data_append]
    have hbuf2 : (jsSplit (buf ++ c)).getLastD "" = String.mk L := by
      rw [hTmk]
      exact getLastD_map_mk _ hTne
    have hnl2 : '\n' ∉ (String.mk L).data := hnl
    have hrest := ih (String.mk L) hnl2
    have hU : jsSplit (String.mk L ++ concatChunks cs) = (mergeLast [L] V).map String.mk := by
      unfold jsSplit
      rw [String.data_append, show (String.mk L).data = L from rfl, splitNL_append,
          splitNL_of_no_nl _ hnl]
    have hS : jsSplit (buf ++ (c ++ concatChunks cs)) =
        (T.dropLast ++ mergeLast [L] V).map String.mk := by
      unfold jsSplit
      rw [String.data_append, String.data_append, ← List.append_assoc, splitNL_append,
          mergeLast_eq_dropLast_append _ _ hTne, ← hLdef]
    have hUne : mergeLast [L] V ≠ [] := mergeLast_ne_nil _ _ (by simp)
    have hUmkne : (mergeLast [L] V).map String.mk ≠ [] := by simpa using hUne
    have hconcat : concatChunks (c :: cs) = c ++ concatChunks cs := rfl
    simp only [feedAll, feedChunk, hconcat]
    rw [hbuf2, hrest, hU, hTmk, hS]
    simp only [Prod.mk.injEq]
    constructor
    · rw [List.map_append, List.dropLast_append_of_ne_nil _ hUmkne, ← List.map_dropLast]
    · rw [List.map_append, getLastD_append_right _ _ hUmkne]

/-- Claim C2: chunking is transparent.  For every way of cutting the
input into chunks — one byte at a time included — the frames the Frame
Reader emits are exactly the pieces of the newline split of the
concatenated input except the final one, which is retained as the
unfinished buffer; so a frame is emitted only once its terminating
newline has arrived. -/
theorem mcp_c2_chunking_transparent (chunks : List String) :
    feedAll "" chunks =
      ((jsSplit (concatChunks chunks)).dropLast,
       (jsSplit (concatChunks chunks)).getLastD "") := by
  have h := feedAll_split chunks "" (by simp)
  rw [show ("" ++ concatChunks chunks) = concatChunks chunks from rfl] at h
  exact h

/-!
## Claim C1 — response ordering across chunks

The `data` handler is an `async` function whose promise the stream does
not await: a frame arriving in a later chunk is dispatched while an
earlier `tools/call` is still pending, and a synchronous response to it
is written first.  The trace below reads frame id 1 (a `tools/call`
whose fetch settles last) and then frame id 2 (an `initialize`), and
writes the response to id 2 before the response to id 1.
-/

/-- Claim C1 fails on the code: in the trace `c1Trace` the frames are
read in id order 1, 2, but the responses are written in id order 2, 1 —
the later fast-completing request overtakes the earlier slow one,
because `stdin.on('data', async ...)` does not serialize invocations
across chunks.  (Within a single chunk the `for ... await` loop does
serialize, which is why the failing trace needs two chunks.) -/
theorem mcp_c1_fast_overtakes_slow :
    c1Trace.framesRead.map frameId = [some (Json.num 1), some (Json.num 2)] ∧
    c1Trace.output.map (fun r => jsObjField r "id") =
      [some (Json.num 2), some (Json.num 1)] :=
  ⟨rfl, rfl⟩

/-!
## Claim C8 — the initialize envelope
-/

/-- Claim C8: every `initialize` response carries the request's id and
the fixed capability announcement — protocol version `2024-11-05`,
capability set `{tools: {}}`, and the configured server name and
version — for both servers; the specification's end-to-end scenario
produces exactly that envelope under id 1; and reading a chunk leaves
the session state (the Frame Reader buffer) exactly as the Frame Reader
alone determines, whatever the dispatch does. -/
theorem mcp_c8_initialize_envelope :
    (∀ id : JsVal, handleInitialize itickServer id =
      [("jsonrpc", some (Json.str "2.0")),
       ("id", id),
       ("result", some (Json.obj [
          ("protocolVersion", Json.str "2024-11-05"),
          ("capabilities", Json.obj [("tools", Json.obj [])]),
          ("serverInfo", Json.obj [
             ("name", Json.str "itick-mcp-server"),
             ("version", Json.str "1.0.0")])]))]) ∧
    (∀ id : JsVal, handleInitialize hkgovServer id =
      [("jsonrpc", some (Json.str "2.0")),
       ("id", id),
       ("result", some (Json.obj [
          ("protocolVersion", Json.str "2024-11-05"),
          ("capabilities", Json.obj [("tools", Json.obj [])]),
          ("serverInfo", Json.obj [
             ("name", Json.str "hk-gov-mcp-server"),
             ("version", Json.str "1.0.0")])]))]) ∧
    (∀ oracle : ToolOracle,
      runLine itickServer oracle c8InitFrame =
        [handleInitialize itickServer (some (Json.num 1))]) ∧
    (∀ (oracle : ToolOracle) (buf chunk : String),
      (runChunk itickServer oracle buf chunk).1 = (feedChunk buf chunk).2) :=
  ⟨fun _ => rfl, fun _ => rfl, fun _ => rfl, fun _ _ _ => rfl⟩

/-!
## Claim C9 — tools/list idempotence over the frozen registry
-/

/-- Claim C9: the registry is the constant table built once in the
constructor, every `tools/list` response carries it unchanged, two
calls in one session serialize it to byte-identical descriptor lists,
and a two-call session yields exactly those two responses. -/
theorem mcp_c9_tools_list_idempotent :
    (∀ id : JsVal, handleToolsList itickServer id =
      [("jsonrpc", some (Json.str "2.0")),
       ("id", id),
       ("result", some (Json.obj [("tools", iTickToolsJson)]))]) ∧
    (∀ id1 id2 : JsVal,
      respToolsBytes (handleToolsList itickServer id1) =
        respToolsBytes (handleToolsList itickServer id2)) ∧
    (∀ id : JsVal,
      respToolsBytes (handleToolsList itickServer id) =
        some (stringifyJson iTickToolsJson)) ∧
    (∀ oracle : ToolOracle,
      runLines itickServer oracle [c9Frame1, c9Frame2] =
        [handleToolsList itickServer (some (Json.num 5)),
         handleToolsList itickServer (some (Json.num 9))]) :=
  ⟨fun _ => rfl, fun _ _ => rfl, fun _ => rfl, fun _ => rfl⟩

/-!
## Claim C10 — the valid-JSON frame `null` is reported as a parse error
-/

/-- Claim C10: the frame `null` parses as JSON, yet reading `.method`
of the `null` message raises inside the same `try` that wraps
`JSON.parse`, so both servers answer it with the top-level `-32700`
envelope carrying no `id` — not with `-32601` and not with a tool-level
failure. -/
theorem mcp_c10_null_frame_is_parse_error :
    jsonParse "null" = some Json.null ∧
    (∀ oracle : ToolOracle,
      runLine itickServer oracle "null" =
        [parseErrorResponse "Cannot read properties of null (reading 'method')"] ∧
      runLine hkgovServer oracle "null" =
        [parseErrorResponse "Cannot read properties of null (reading 'method')"]) ∧
    respErrCode (parseErrorResponse "Cannot read properties of null (reading 'method')") =
      some (-32700) ∧
    jsObjField (parseErrorResponse "Cannot read properties of null (reading 'method')") "id" =
      none :=
  ⟨rfl, fun _ => ⟨rfl, rfl⟩, rfl, rfl⟩

/-!
## Shared lemmas about the tools/call envelope and the dispatch switch
-/

/-- A `tools/call` envelope never carries a top-level `error` member. -/
theorem toolsCallWrap_no_error (i : JsVal) (o : Except String String) :
    jsObjField (toolsCallWrap i o) "error" = none := by
  cases o <;> rfl

/-- A wrapped failure reports `isError: true`. -/
theorem toolsCallWrap_err_isError (i : JsVal) (e : String) :
    respIsError (toolsCallWrap i (Except.error e)) = some (Json.bool true) := rfl

/-- A wrapped failure's text is `Error: <message>`. -/
theorem toolsCallWrap_err_text (i : JsVal) (e : String) :
    respText (toolsCallWrap i (Except.error e)) = some (Json.str ("Error: " ++ e)) := rfl

/-- Strict string comparison on a string value is string equality. -/
theorem isStrVal_some_str (t s : String) : isStrVal (some (Json.str t)) s = (t == s) := rfl

/-- A message on which one property access succeeded is not `null`, so
every other access succeeds as well. -/
theorem jsGet_ok_of_ok {msg : Json} {k : String} {v : JsVal} (k' : String)
    (h : jsGet (some msg) k = Except.ok v) :
    ∃ v', jsGet (some msg) k' = Except.ok v' := by
  cases msg <;> simp [jsGet] at h ⊢

/-- A frame dispatched as a `tools/call` always yields exactly one
wrapped envelope, whatever the registry, the arguments and the
collaborator do. -/
theorem runLine_toolsCall (srv : MCPServer) (oracle : ToolOracle) (line : String) (msg : Json)
    (hb : jsBlankLine line = false) (hp : jsonParse line = some msg)
    (hm : jsGet (some msg) "method" = Except.ok (some (Json.str "tools/call"))) :
    ∃ (i : JsVal) (outcome : Except String String),
      runLine srv oracle line = [toolsCallWrap i outcome] := by
  obtain ⟨vi, hi⟩ := jsGet_ok_of_ok "id" hm
  obtain ⟨vp, hvp⟩ := jsGet_ok_of_ok "params" hm
  have h1 : isStrVal (some (Json.str "tools/call")) "initialize" = false := rfl
  have h2 : isStrVal (some (Json.str "tools/call")) "tools/list" = false := rfl
  have h3 : isStrVal (some (Json.str "tools/call")) "tools/call" = true := rfl
  rcases hsc : (do
      let name ← jsGet vp "name"
      let args ← jsGet vp "arguments"
      Except.ok (srv.callPre name args) : Except String CallPre) with e | pre
  · simp only [runLine, lineAction, lineDispatch, hb, hp, hm, exceptBindOk, h1, h2, h3,
               Bool.false_eq_true, if_false, if_true, hi, hvp, hsc]
    exact ⟨vi, Except.error e, rfl⟩
  · cases pre with
    | fail e =>
      simp only [runLine, lineAction, lineDispatch, hb, hp, hm, exceptBindOk, h1, h2, h3,
                 Bool.false_eq_true, if_false, if_true, hi, hvp, hsc]
      exact ⟨vi, Except.error e, rfl⟩
    | fetch host path =>
      simp only [runLine, lineAction, lineDispatch, hb, hp, hm, exceptBindOk, h1, h2, h3,
                 Bool.false_eq_true, if_false, if_true, hi, hvp, hsc]
      exact ⟨vi, oracle host path, rfl⟩

/-- Reflexivity of the front test. -/
theorem listStartsWith_refl : ∀ l : List Char, listStartsWith l l = true
  | [] => rfl
  | c :: cs => by simp [listStartsWith, listStartsWith_refl cs]

/-- A suffix occurs in the whole. -/
theorem listOccursIn_append_self (a b : List Char) : listOccursIn b (a ++ b) = true := by
  induction a with
  | nil =>
    cases b with
    | nil => rfl
    | cons c cs => simp [listOccursIn, listStartsWith_refl]
  | cons c cs ih => simp [listOccursIn, ih]

/-- A string contains its own suffix. -/
theorem strContains_append_self (a b : String) : strContains (a ++ b) b = true :=
  listOccursIn_append_self a.data b.data

/-!
## Claims C3 and C4 — the unknown-tool channel

`handleToolCall` throws `Unknown tool: <name>` for an unregistered
name, and `handleToolsCall` catches it like any other handler fault:
the response is a success envelope with `isError: true`.  Claim C3
(which asserts a top-level error) is therefore false.  Claim C4 holds
except in the iTick server when `arguments.code` is missing or falsy:
its `code` requirement is checked before the tool-name switch, so the
text is `Error: Stock code is required` and does not mention the tool.
-/

/-- Claim C3 as stated is false at a concrete input: the HKGov server's
response to a `tools/call` of the unregistered tool `nope` has no
top-level `error` member at all; the outcome is the tool-level channel
(`result.isError = true`, text `Error: Unknown tool: nope`). -/
theorem mcp_c3_counterexample :
    jsObjField (handleToolsCall hkgovServer unknownToolOracle (some (Json.num 5)) c3Params)
      "error" = none ∧
    respIsError (handleToolsCall hkgovServer unknownToolOracle (some (Json.num 5)) c3Params) =
      some (Json.bool true) ∧
    respText (handleToolsCall hkgovServer unknownToolOracle (some (Json.num 5)) c3Params) =
      some (Json.str "Error: Unknown tool: nope") :=
  ⟨rfl, rfl, rfl⟩

/-- Claim C3 amended: a `tools/call` naming an unregistered tool is
surfaced as a tool-level failure — a success envelope with
`result.isError = true` — and never as a top-level JSON-RPC error, on
both servers. -/
theorem mcp_c3_unknown_tool_tool_level
    (oracle : ToolOracle) (id params : JsVal) (n : String) (args : JsVal)
    (hn : jsGet params "name" = Except.ok (some (Json.str n)))
    (ha : jsGet params "arguments" = Except.ok args) :
    (n ∉ toolNamesOf iTickToolsJson →
      jsObjField (handleToolsCall itickServer oracle id params) "error" = none ∧
      respIsError (handleToolsCall itickServer oracle id params) = some (Json.bool true)) ∧
    (n ∉ toolNamesOf hkgovToolsJson →
      jsObjField (handleToolsCall hkgovServer oracle id params) "error" = none ∧
      respIsError (handleToolsCall hkgovServer oracle id params) = some (Json.bool true)) := by
  constructor
  · intro hreg
    refine ⟨toolsCallWrap_no_error _ _, ?_⟩
    have hreg' : n ∉ ["itick_search_symbol", "itick_get_price", "itick_get_kline",
                      "itick_get_quote", "itick_get_depth", "itick_get_trades"] := hreg
    simp only [List.mem_cons, List.not_mem_nil, or_false, not_or] at hreg'
    obtain ⟨e1, e2, e3, e4, e5, e6⟩ := hreg'
    have b1 : (n == "itick_search_symbol") = false := beq_eq_false_iff_ne.mpr e1
    have b2 : (n == "itick_get_price") = false := beq_eq_false_iff_ne.mpr e2
    have b3 : (n == "itick_get_kline") = false := beq_eq_false_iff_ne.mpr e3
    have b4 : (n == "itick_get_quote") = false := beq_eq_false_iff_ne.mpr e4
    have b5 : (n == "itick_get_depth") = false := beq_eq_false_iff_ne.mpr e5
    have b6 : (n == "itick_get_trades") = false := beq_eq_false_iff_ne.mpr e6
    unfold handleToolsCall toolCallOutcome
    simp only [hn, exceptBindOk, ha]
    have hsrv : itickServer.callPre = iTickHandleToolCall := rfl
    rw [hsrv]
    unfold iTickHandleToolCall
    cases hc : jsTruthy (jsOptGet args "code") with
    | false =>
      simp only [hc, Bool.not_false, if_true]
      rfl
    | true =>
      simp only [hc, Bool.not_true, Bool.false_eq_true, if_false,
                 isStrVal_some_str, b1, b2, b3, b4, b5, b6]
      rfl
  · intro hreg
    refine ⟨toolsCallWrap_no_error _ _, ?_⟩
    have hreg' : n ∉ ["hko_local_forecast", "hko_9day_forecast", "hko_current_weather",
                      "hko_weather_warnings", "hko_special_tips", "hko_earthquake_info",
                      "td_traffic_speed", "ha_ae_waiting_time", "kmb_get_routes",
                      "kmb_get_stops", "kmb_get_eta"] := hreg
    simp only [List.mem_cons, List.not_mem_nil, or_false, not_or] at hreg'
    obtain ⟨e1, e2, e3, e4, e5, e6, e7, e8, e9, e10, e11⟩ := hreg'
    have b1 : (n == "hko_local_forecast") = false := beq_eq_false_iff_ne.mpr e1
    have b2 : (n == "hko_9day_forecast") = false := beq_eq_false_iff_ne.mpr e2
    have b3 : (n == "hko_current_weather") = false := beq_eq_false_iff_ne.mpr e3
    have b4 : (n == "hko_weather_warnings") = false := beq_eq_false_iff_ne.mpr e4
    have b5 : (n == "hko_special_tips") = false := beq_eq_false_iff_ne.mpr e5
    have b6 : (n == "hko_earthquake_info") = false := beq_eq_false_iff_ne.mpr e6
    have b7 : (n == "td_traffic_speed") = false := beq_eq_false_iff_ne.mpr e7
    have b8 : (n == "ha_ae_waiting_time") = false := beq_eq_false_iff_ne.mpr e8
    have b9 : (n == "kmb_get_routes") = false := beq_eq_false_iff_ne.mpr e9
    have b10 : (n == "kmb_get_stops") = false := beq_eq_false_iff_ne.mpr e10
    have b11 : (n == "kmb_get_eta") = false := beq_eq_false_iff_ne.mpr e11
    unfold handleToolsCall toolCallOutcome
    simp only [hn, exceptBindOk, ha]
    have hsrv : hkgovServer.callPre = hkgovHandleToolCall := rfl
    rw [hsrv]
    unfold hkgovHandleToolCall
    simp only [isStrVal_some_str, b1, b2, b3, b4, b5, b6, b7, b8, b9, b10, b11,
               Bool.false_eq_true, if_false]
    rfl

/-- Witness for the amended C3: the concrete unknown-tool request of
the counterexample section, run through the theorem. -/
theorem mcp_c3_witness :
    jsGet c3Params "name" = Except.ok (some (Json.str "nope")) ∧
    jsGet c3Params "arguments" = Except.ok (some (Json.obj [])) ∧
    "nope" ∉ toolNamesOf hkgovToolsJson ∧
    (jsObjField (handleToolsCall hkgovServer unknownToolOracle (some (Json.num 5)) c3Params)
        "error" = none ∧
     respIsError (handleToolsCall hkgovServer unknownToolOracle (some (Json.num 5)) c3Params) =
        some (Json.bool true)) :=
  ⟨rfl, rfl, by decide,
   (mcp_c3_unknown_tool_tool_level unknownToolOracle (some (Json.num 5)) c3Params "nope"
      (some (Json.obj [])) rfl rfl).2 (by decide)⟩

/-- Claim C4 as stated is false at a concrete input: on the iTick
server, `tools/call` of `nonexistent_tool` with empty arguments is
answered with `isError: true` but text `Error: Stock code is required`
— the missing-`code` check precedes the tool-name switch, and the text
does not contain the requested tool name. -/
theorem mcp_c4_counterexample :
    jsObjField (handleToolsCall itickServer unknownToolOracle (some (Json.num 2)) c4Params)
      "error" = none ∧
    respIsError (handleToolsCall itickServer unknownToolOracle (some (Json.num 2)) c4Params) =
      some (Json.bool true) ∧
    respText (handleToolsCall itickServer unknownToolOracle (some (Json.num 2)) c4Params) =
      some (Json.str "Error: Stock code is required") ∧
    strContains "Error: Stock code is required" "nonexistent_tool" = false :=
  ⟨rfl, rfl, rfl, rfl⟩

/-- Claim C4 amended: a `tools/call` naming an unregistered tool is
answered with a success envelope (no top-level `error`) whose
`result.isError` is `true`; its text contains the requested tool name
whenever the dispatch reaches the tool-name switch — always on the
HKGov server, and on the iTick server whenever `arguments.code` is
present and truthy (otherwise the text is `Error: Stock code is
required`). -/
theorem mcp_c4_unknown_tool_reply
    (oracle : ToolOracle) (id params : JsVal) (n : String) (args : JsVal)
    (hn : jsGet params "name" = Except.ok (some (Json.str n)))
    (ha : jsGet params "arguments" = Except.ok args) :
    (n ∉ toolNamesOf iTickToolsJson → jsTruthy (jsOptGet args "code") = true →
      jsObjField (handleToolsCall itickServer oracle id params) "error" = none ∧
      respIsError (handleToolsCall itickServer oracle id params) = some (Json.bool true) ∧
      respText (handleToolsCall itickServer oracle id params) =
        some (Json.str ("Error: Unknown tool: " ++ n)) ∧
      strContains ("Error: Unknown tool: " ++ n) n = true) ∧
    (n ∉ toolNamesOf hkgovToolsJson →
      jsObjField (handleToolsCall hkgovServer oracle id params) "error" = none ∧
      respIsError (handleToolsCall hkgovServer oracle id params) = some (Json.bool true) ∧
      respText (handleToolsCall hkgovServer oracle id params) =
        some (Json.str ("Error: Unknown tool: " ++ n)) ∧
      strContains ("Error: Unknown tool: " ++ n) n = true) := by
  constructor
  · intro hreg hc
    have hreg' : n ∉ ["itick_search_symbol", "itick_get_price", "itick_get_kline",
                      "itick_get_quote", "itick_get_depth", "itick_get_trades"] := hreg
    simp only [List.mem_cons, List.not_mem_nil, or_false, not_or] at hreg'
    obtain ⟨e1, e2, e3, e4, e5, e6⟩ := hreg'
    have b1 : (n == "itick_search_symbol") = false := beq_eq_false_iff_ne.mpr e1
    have b2 : (n == "itick_get_price") = false := beq_eq_false_iff_ne.mpr e2
    have b3 : (n == "itick_get_kline") = false := beq_eq_false_iff_ne.mpr e3
    have b4 : (n == "itick_get_quote") = false := beq_eq_false_iff_ne.mpr e4
    have b5 : (n == "itick_get_depth") = false := beq_eq_false_iff_ne.mpr e5
    have b6 : (n == "itick_get_trades") = false := beq_eq_false_iff_ne.mpr e6
    refine ⟨toolsCallWrap_no_error _ _, ?_, ?_, strContains_append_self "Error: Unknown tool: " n⟩
    all_goals
      unfold handleToolsCall toolCallOutcome
      simp only [hn, exceptBindOk, ha]
      have hsrv : itickServer.callPre = iTickHandleToolCall := rfl
      rw [hsrv]
      unfold iTickHandleToolCall
      simp only [hc, Bool.not_true, Bool.false_eq_true, if_false,
                 isStrVal_some_str, b1, b2, b3, b4, b5, b6]
      rfl
  · intro hreg
    have hreg' : n ∉ ["hko_local_forecast", "hko_9day_forecast", "hko_current_weather",
                      "hko_weather_warnings", "hko_special_tips", "hko_earthquake_info",
                      "td_traffic_speed", "ha_ae_waiting_time", "kmb_get_routes",
                      "kmb_get_stops", "kmb_get_eta"] := hreg
    simp only [List.mem_cons, List.not_mem_nil, or_false, not_or] at hreg'
    obtain ⟨e1, e2, e3, e4, e5, e6, e7, e8, e9, e10, e11⟩ := hreg'
    have b1 : (n == "hko_local_forecast") = false := beq_eq_false_iff_ne.mpr e1
    have b2 : (n == "hko_9day_forecast") = false := beq_eq_false_iff_ne.mpr e2
    have b3 : (n == "hko_current_weather") = false := beq_eq_false_iff_ne.mpr e3
    have b4 : (n == "hko_weather_warnings") = false := beq_eq_false_iff_ne.mpr e4
    have b5 : (n == "hko_special_tips") = false := beq_eq_false_iff_ne.mpr e5
    have b6 : (n == "hko_earthquake_info") = false := beq_eq_false_iff_ne.mpr e6
    have b7 : (n == "td_traffic_speed") = false := beq_eq_false_iff_ne.mpr e7
    have b8 : (n == "ha_ae_waiting_time") = false := beq_eq_false_iff_ne.mpr e8
    have b9 : (n == "kmb_get_routes") = false := beq_eq_false_iff_ne.mpr e9
    have b10 : (n == "kmb_get_stops") = false := beq_eq_false_iff_ne.mpr e10
    have b11 : (n == "kmb_get_eta") = false := beq_eq_false_iff_ne.mpr e11
    refine ⟨toolsCallWrap_no_error _ _, ?_, ?_, strContains_append_self "Error: Unknown tool: " n⟩
    all_goals
      unfold handleToolsCall toolCallOutcome
      simp only [hn, exceptBindOk, ha]
      have hsrv : hkgovServer.callPre = hkgovHandleToolCall := rfl
      rw [hsrv]
      unfold hkgovHandleToolCall
      simp only [isStrVal_some_str, b1, b2, b3, b4, b5, b6, b7, b8, b9, b10, b11,
                 Bool.false_eq_true, if_false]
      rfl

/-- Witness for the amended C4: `nonexistent_tool` with a truthy
`code`, on the iTick server, through the theorem. -/
theorem mcp_c4_witness :
    jsGet (some (Json.obj [("name", Json.str "nonexistent_tool"),
                           ("arguments", Json.obj [("code", Json.str "700")])])) "name" =
      Except.ok (some (Json.str "nonexistent_tool")) ∧
    "nonexistent_tool" ∉ toolNamesOf iTickToolsJson ∧
    jsTruthy (jsOptGet (some (Json.obj [("code", Json.str "700")])) "code") = true ∧
    (jsObjField (handleToolsCall itickServer unknownToolOracle (some (Json.num 2))
        (some (Json.obj [("name", Json.str "nonexistent_tool"),
                         ("arguments", Json.obj [("code", Json.str "700")])]))) "error" = none ∧
     respIsError (handleToolsCall itickServer unknownToolOracle (some (Json.num 2))
        (some (Json.obj [("name", Json.str "nonexistent_tool"),
                         ("arguments", Json.obj [("code", Json.str "700")])]))) =
        some (Json.bool true) ∧
     respText (handleToolsCall itickServer unknownToolOracle (some (Json.num 2))
        (some (Json.obj [("name", Json.str "nonexistent_tool"),
                         ("arguments", Json.obj [("code", Json.str "700")])]))) =
        some (Json.str ("Error: Unknown tool: " ++ "nonexistent_tool")) ∧
     strContains ("Error: Unknown tool: " ++ "nonexistent_tool") "nonexistent_tool" = true) :=
  ⟨rfl, by decide, rfl,
   (mcp_c4_unknown_tool_reply unknownToolOracle (some (Json.num 2))
      (some (Json.obj [("name", Json.str "nonexistent_tool"),
                       ("arguments", Json.obj [("code", Json.str "700")])]))
      "nonexistent_tool" (some (Json.obj [("code", Json.str "700")])) rfl rfl).1
      (by decide) rfl⟩

/-!
## Claim C5 — a malformed frame: one parse error, session continues
-/

/-- Claim C5: a nonblank frame that is not valid JSON produces exactly
one response — the top-level envelope with code `-32700` and no `id` —
and the remaining frames are processed exactly as they would have been,
on either server and whatever the collaborator does. -/
theorem mcp_c5_parse_error_continues
    (srv : MCPServer) (oracle : ToolOracle) (line : String) (rest : List String)
    (hb : jsBlankLine line = false) (hp : jsonParse line = none) :
    runLines srv oracle (line :: rest) =
      parseErrorResponse jsonSyntaxErrorMessage :: runLines srv oracle rest ∧
    respErrCode (parseErrorResponse jsonSyntaxErrorMessage) = some (-32700) ∧
    jsObjField (parseErrorResponse jsonSyntaxErrorMessage) "id" = none := by
  refine ⟨?_, rfl, rfl⟩
  simp only [runLines, runLine, lineAction, hb, hp, Bool.false_eq_true, if_false]
  rfl

/-- Witness for C5: the malformed frame `not json` followed by a valid
`tools/list` yields the parse-error envelope and then the tool list. -/
theorem mcp_c5_witness :
    jsBlankLine "not json" = false ∧
    jsonParse "not json" = none ∧
    runLines itickServer unknownToolOracle ["not json", c5NextFrame] =
      parseErrorResponse jsonSyntaxErrorMessage ::
        runLines itickServer unknownToolOracle [c5NextFrame] ∧
    runLines itickServer unknownToolOracle [c5NextFrame] =
      [handleToolsList itickServer (some (Json.num 3))] :=
  ⟨rfl, rfl,
   (mcp_c5_parse_error_continues itickServer unknownToolOracle "not json" [c5NextFrame]
      rfl rfl).1,
   rfl⟩

/-!
## Claim C6 — handler faults are contained at the dispatcher boundary
-/

/-- Claim C6: `handleToolsCall` never yields a top-level error; when the
dispatch raises — a timeout, a formatter fault, a missing required
argument, an unknown tool, a `TypeError` on the params — the response is
the tool-level failure `isError: true` with text `Error: <message>`; and
a `tools/call` frame in the session loop always produces exactly one
response, after which the loop processes the remaining frames — no
handler fault escapes. -/
theorem mcp_c6_handler_faults_contained
    (srv : MCPServer) (oracle : ToolOracle) (id params : JsVal) :
    jsObjField (handleToolsCall srv oracle id params) "error" = none ∧
    (∀ e : String, toolCallOutcome srv oracle params = Except.error e →
      respIsError (handleToolsCall srv oracle id params) = some (Json.bool true) ∧
      respText (handleToolsCall srv oracle id params) =
        some (Json.str ("Error: " ++ e))) ∧
    (∀ (line : String) (msg : Json) (rest : List String),
      jsBlankLine line = false →
      jsonParse line = some msg →
      jsGet (some msg) "method" = Except.ok (some (Json.str "tools/call")) →
      ∃ resp : JSObj,
        runLines srv oracle (line :: rest) = resp :: runLines srv oracle rest ∧
        jsObjField resp "error" = none) := by
  refine ⟨toolsCallWrap_no_error _ _, ?_, ?_⟩
  · intro e he
    unfold handleToolsCall
    rw [he]
    exact ⟨rfl, rfl⟩
  · intro line msg rest hb hp hm
    obtain ⟨i, outcome, hru⟩ := runLine_toolsCall srv oracle line msg hb hp hm
    refine ⟨toolsCallWrap i outcome, ?_, toolsCallWrap_no_error i outcome⟩
    simp only [runLines, hru, List.singleton_append]

/-- Witness for C6: a registered tool whose fetch raises `Request
timeout` is answered `isError: true` with text `Error: Request
timeout`, and the frame produces exactly one response in the loop. -/
theorem mcp_c6_witness :
    toolCallOutcome itickServer timeoutOracle c6Params = Except.error "Request timeout" ∧
    jsBlankLine c6Frame = false ∧
    jsonParse c6Frame = some (Json.obj
      [("jsonrpc", Json.str "2.0"), ("id", Json.num 4), ("method", Json.str "tools/call"),
       ("params", Json.obj [("name", Json.str "itick_get_price"),
                            ("arguments", Json.obj [("code", Json.str "700")])])]) ∧
    (respIsError (handleToolsCall itickServer timeoutOracle (some (Json.num 4)) c6Params) =
        some (Json.bool true) ∧
     respText (handleToolsCall itickServer timeoutOracle (some (Json.num 4)) c6Params) =
        some (Json.str ("Error: " ++ "Request timeout"))) ∧
    (∃ resp : JSObj,
      runLines itickServer timeoutOracle [c6Frame] =
        resp :: runLines itickServer timeoutOracle [] ∧
      jsObjField resp "error" = none) :=
  ⟨rfl, rfl, rfl,
   (mcp_c6_handler_faults_contained itickServer timeoutOracle (some (Json.num 4))
      c6Params).2.1 "Request timeout" rfl,
   (mcp_c6_handler_faults_contained itickServer timeoutOracle (some (Json.num 4))
      c6Params).2.2 c6Frame
      (Json.obj [("jsonrpc", Json.str "2.0"), ("id", Json.num 4),
                 ("method", Json.str "tools/call"),
                 ("params", Json.obj [("name", Json.str "itick_get_price"),
                                      ("arguments", Json.obj [("code", Json.str "700")])])])
      [] rfl rfl rfl⟩

/-!
## Claim C7 — unknown methods
-/

/-- Claim C7: a nonblank frame that parses to an object whose `method`
member is a string other than the three supported ones is answered with
the top-level envelope `-32601`, message `Method not found: <method>`,
under the request's own `id`, on either server. -/
theorem mcp_c7_method_not_found
    (srv : MCPServer) (oracle : ToolOracle) (line : String)
    (fields : List (String × Json)) (m : String)
    (hb : jsBlankLine line = false)
    (hp : jsonParse line = some (Json.obj fields))
    (hm : lookupField fields "method" = some (Json.str m))
    (h1 : m ≠ "initialize") (h2 : m ≠ "tools/list") (h3 : m ≠ "tools/call") :
    runLine srv oracle line =
      [methodNotFound (lookupField fields "id") (some (Json.str m))] ∧
    respErrCode (methodNotFound (lookupField fields "id") (some (Json.str m))) =
      some (-32601) ∧
    respErrMsg (methodNotFound (lookupField fields "id") (some (Json.str m))) =
      some (Json.str ("Method not found: " ++ m)) ∧
    jsObjField (methodNotFound (lookupField fields "id") (some (Json.str m))) "id" =
      lookupField fields "id" := by
  have b1 : (m == "initialize") = false := beq_eq_false_iff_ne.mpr h1
  have b2 : (m == "tools/list") = false := beq_eq_false_iff_ne.mpr h2
  have b3 : (m == "tools/call") = false := beq_eq_false_iff_ne.mpr h3
  have hget : jsGet (some (Json.obj fields)) "method" =
      Except.ok (lookupField fields "method") := rfl
  refine ⟨?_, rfl, rfl, rfl⟩
  simp only [runLine, lineAction, lineDispatch, hb, hp, hget, hm, exceptBindOk,
             isStrVal_some_str, b1, b2, b3, Bool.false_eq_true, if_false]
  rfl

/-- Witness for C7: the frame with method `foo` and id 7 is answered
`-32601` under id 7. -/
theorem mcp_c7_witness :
    jsBlankLine c7Frame = false ∧
    jsonParse c7Frame = some (Json.obj
      [("jsonrpc", Json.str "2.0"), ("id", Json.num 7), ("method", Json.str "foo")]) ∧
    runLine itickServer unknownToolOracle c7Frame =
      [methodNotFound
        (lookupField [("jsonrpc", Json.str "2.0"), ("id", Json.num 7),
                      ("method", Json.str "foo")] "id")
        (some (Json.str "foo"))] :=
  ⟨rfl, rfl,
   (mcp_c7_method_not_found itickServer unknownToolOracle c7Frame
      [("jsonrpc", Json.str "2.0"), ("id", Json.num 7), ("method", Json.str "foo")] "foo"
      rfl rfl rfl (by decide) (by decide) (by decide)).1⟩
